import Mathlib

/-!
Verification development for the parsley-rs lexing/parsing toolkit.

The Rust sources are shallowly embedded:
* iterators are modelled as the list of results they have yet to produce,
* `Rc<RefCell<_>>` interior mutability is modelled by explicit state passing
  (every parser returns its result *and* the final iterator state, since the
  Rust closures mutate the shared iterator whether they succeed or fail),
* trait objects (`dyn AnyToken`, `dyn AnyNode`, `dyn Tokenizer`) are modelled
  by closed data with explicit type tags, mirroring `downcast_ref` by tag
  comparison,
* unbounded `while`/`loop` constructs are modelled with an explicit fuel
  parameter; all theorems are stated with enough fuel that the fuel cut-off
  is never reached.
-/

namespace Parsley

/-! ### src/lexical/error.rs -/

/-- Models `character_stream::CharacterStreamError`: the offending bytes of a
failed UTF-8 decode (the second component of the Rust struct, an `io` cause,
carries no information used by this repository). -/
structure CSErr where
  bytes : List Nat
deriving DecidableEq

/-- The payload of `Box<dyn Error>` inside `LexError::Other` /
`LexError::OtherIndexed`: in this repository it is either a wrapped
`CharacterStreamError` or a plain message string. -/
inductive ErrPayload where
  | cs (e : CSErr)
  | msg (s : String)
deriving DecidableEq

/-- Models `LexError` from src/lexical/error.rs. -/
inductive LexErr where
  | unexpectedEndOfStream
  | other (e : ErrPayload)
  | otherIndexed (i : Nat) (e : ErrPayload)
deriving DecidableEq

/-! ### src/lexical/stream.rs -/

/-- One output of the `Clusters` iterator: a grapheme cluster with its
inclusive byte range `(start, end)`, or a decode error (strict mode). -/
abbrev ClusterRes := Except CSErr (String × Nat × Nat)

/-- Models `GraphemeLocation` (stream.rs). `byte_range` is the inclusive
range `byteStart..=byteEnd`. -/
structure GraphemeLocation where
  index : Nat
  byteStart : Nat
  byteEnd : Nat
  line : Nat
  column : Nat
deriving DecidableEq

/-- Models `Graphemes` (stream.rs). The wrapped `Clusters` iterator `iter` is
modelled as the list of results it has yet to yield; `src` models the
provenance string returned by `source_string()`. -/
structure GraphemesS where
  iter : List ClusterRes
  count : Nat
  column : Nat
  lines : List String
  queue : List ClusterRes
  peekIndex : Nat
  lastByteIndex : Nat
  src : String

/-- Models `Graphemes::new`: counters at zero, `lines: vec!["".into()]`,
empty peek queue. -/
def GraphemesS.new (iter : List ClusterRes) (src : String) : GraphemesS :=
  ⟨iter, 0, 0, [""], [], 0, 0, src⟩

/-- `Graphemes::current_line`: `lines.len().saturating_sub(1)`. -/
def GraphemesS.currentLine (g : GraphemesS) : Nat :=
  g.lines.length - 1

/-- `Graphemes::current_column`. -/
def GraphemesS.currentColumn (g : GraphemesS) : Nat :=
  g.column

/-- `Graphemes::current_index`: `count.saturating_sub(1)`. -/
def GraphemesS.currentIndex (g : GraphemesS) : Nat :=
  g.count - 1

/-- The shared tail of `Graphemes::peek` (stream.rs 326-350): on an `Ok`
cluster, compute the speculative location and advance `peek_index`; on an
`Err`, return `None` without touching `peek_index` (the error stays queued and
is surfaced only by a later `next`). -/
def peekProcess (g1 : GraphemesS) (res : ClusterRes) :
    Option (String × GraphemeLocation) × GraphemesS :=
  match res with
  | .ok (grapheme, bs, be) =>
      let lc : Nat × Nat :=
        if grapheme = "\r\n" ∨ grapheme = "\n" then (g1.lines.length, 0)
        else (g1.lines.length - 1, if g1.count = 0 then 0 else g1.column + 1)
      (some (grapheme, ⟨g1.currentIndex, bs, be, lc.1, lc.2⟩),
       { g1 with peekIndex := g1.peekIndex + 1 })
  | .error _ => (none, g1)

/-- Models `Graphemes::peek` (stream.rs 313-351). When the peek cursor is past
the queue, one upstream result is pulled and pushed onto the queue; Rust then
indexes `queue[peek_index]`, which under the maintained invariant
`peek_index ≤ queue.len()` is exactly the pushed element (`getD _ x` below;
larger peek indices would panic in Rust and are unreachable). -/
def GraphemesS.peek (g : GraphemesS) : Option (String × GraphemeLocation) × GraphemesS :=
  if h : g.peekIndex < g.queue.length then
    peekProcess g (g.queue.get ⟨g.peekIndex, h⟩)
  else
    match g.iter with
    | [] => (none, g)
    | x :: rest =>
        peekProcess { g with iter := rest, queue := g.queue ++ [x] }
          ((g.queue ++ [x]).getD g.peekIndex x)

/-- Models `Graphemes::reset_peek`. -/
def GraphemesS.resetPeek (g : GraphemesS) : GraphemesS :=
  { g with peekIndex := 0 }

/-- Replaces the last element of the accumulated line texts, modelling
`self.lines.last_mut()` followed by `push_str`. -/
def updateLast (f : String → String) : List String → List String
  | [] => []
  | [x] => [f x]
  | x :: y :: xs => x :: updateLast f (y :: xs)

/-- The body of `Graphemes::next` (stream.rs 364-387) applied to the popped
cluster result. -/
def nextProcess (g1 : GraphemesS) (res : ClusterRes) :
    Option (Except LexErr (String × GraphemeLocation)) × GraphemesS :=
  match res with
  | .error e => (some (.error (.other (.cs e))), g1)
  | .ok (grapheme, bs, be) =>
      let g2 := { g1 with count := g1.count + 1 }
      let g3 :=
        if grapheme = "\r\n" ∨ grapheme = "\n" then
          { g2 with column := 0, lines := g2.lines ++ [""] }
        else
          match g2.lines with
          | [] => g2
          | _ :: _ =>
              { g2 with
                column := if g2.count ≠ 1 then g2.column + 1 else g2.column,
                lines := updateLast (fun s => s ++ grapheme) g2.lines }
      let g4 := { g3 with lastByteIndex := be }
      (some (.ok (grapheme, ⟨g4.currentIndex, bs, be, g4.currentLine, g4.currentColumn⟩)), g4)

/-- Models `<Graphemes as Iterator>::next` (stream.rs 358-391): reset the peek
cursor, pop the front of the queue or pull from upstream, then update the
line/column/byte bookkeeping. -/
def GraphemesS.next (g0 : GraphemesS) : Option (Except LexErr (String × GraphemeLocation)) × GraphemesS :=
  let g := g0.resetPeek
  match g.queue with
  | x :: qs => nextProcess { g with queue := qs } x
  | [] =>
      match g.iter with
      | x :: rest => nextProcess { g with iter := rest } x
      | [] => (none, g)

/-! ### src/lexical/span.rs -/

/-- Models `Line` (span.rs): a line index with an inclusive grapheme-column
range `rangeStart..=rangeEnd`. -/
structure Line where
  index : Nat
  rangeStart : Nat
  rangeEnd : Nat
deriving DecidableEq

/-- Models `generate_lines` (span.rs 284-313). `gcount` abstracts
`Clusters::new(Cursor::new(line), true, true).count()`, the grapheme-cluster
count of a line's text computed by the external `unicode_segmentation` crate
(for all-ASCII, CRLF-free strings it equals the character count). Note the
`.saturating_sub(1)` in the source is commented out, so `max` is the full
cluster count. When `lineStart > lineEnd` the Rust code panics on
`last_mut().unwrap()`; that case is unreachable in the theorems below. -/
def generate_lines (gcount : String → Nat) (lines : List String)
    (lineStart lineEnd colStart colEnd : Nat) : List Line :=
  if lineStart = lineEnd then
    [⟨lineStart, colStart, colEnd⟩]
  else
    let body := (List.range (lineEnd + 1 - lineStart)).map
      (fun i => Line.mk (lineStart + i) 0 (gcount (lines.getD (lineStart + i) "")))
    body.dropLast ++ [⟨lineEnd, 0, colEnd⟩]

/-- Models `Span` (span.rs). -/
structure Span where
  lines : List Line
  graphemeRange : Option (Nat × Nat)
  byteRange : Option (Nat × Nat)
  source : String
deriving DecidableEq

/-- `Span::default()`: the empty span used for synthetic tokens. -/
def Span.empty : Span := ⟨[], none, none, ""⟩

/-- Models `Span::new` (span.rs 329-345); ranges are inclusive pairs. -/
def Span.new (gcount : String → Nat) (lines : List String)
    (graphemeRange byteRange lineRange columnRange : Nat × Nat) (src : String) : Span :=
  ⟨generate_lines gcount lines lineRange.1 lineRange.2 columnRange.1 columnRange.2,
   some graphemeRange, some byteRange, src⟩

/-! ### src/lexical/token.rs and src/lexical/lexer.rs -/

/-- A concrete token value, modelling an implementor of the `TokenValue`
capability used by the current `Lexer` (`should_skip`, mod.rs tests) together
with the `is_done`/`can_be_forced` trait methods declared in token.rs. `id`
distinguishes lexical categories. -/
structure TokVal where
  id : Nat
  skip : Bool
  isDoneO : Option Bool
  canBeForcedO : Option Bool
deriving DecidableEq

/-- Models `Token::is_done` (token.rs 85-87): `value_store.is_done().unwrap_or(true)`. -/
def TokVal.is_done (v : TokVal) : Bool :=
  v.isDoneO.getD true

/-- Models `Token::can_be_forced` (token.rs 90-92): `value_store.can_be_forced().unwrap_or(true)`. -/
def TokVal.can_be_forced (v : TokVal) : Bool :=
  v.canBeForcedO.getD true

/-- Modelled from the spec: the span-carrying `Token<TokenType>`
(`{span: Span, value: TokenType}`) consumed and produced by the current
`Lexer` is referenced by lexer.rs (`Token::new(token, span)`, `Token::from`)
but its definition is not under src/ (token.rs holds an older span-less
design). -/
structure LToken where
  value : TokVal
  span : Span
deriving DecidableEq

/-- Modelled from the spec: `Token::from(eof)` builds the synthetic
end-of-stream token; per the spec, "an empty/default Span (used for synthetic
tokens) has no ranges and an empty source string". -/
def LToken.fromVal (v : TokVal) : LToken :=
  ⟨v, Span.empty⟩

/-- A tokenizer strategy, modelling a `TokenizerFn` factory together with the
fresh `Tokenizer` instance it creates for a single `Lexer::next` call. `lex`
additionally receives the grapheme/location/lookahead that `can_tokenize` saw,
standing for the instance state a stateful tokenizer may have recorded during
`can_tokenize`; it returns the token value (or error) plus the final states of
the `&mut` token list and grapheme stream. -/
structure TokenizerI where
  canTokenize : List LToken → String → GraphemeLocation → Option String → Bool
  lex : String → GraphemeLocation → Option String → List LToken → GraphemesS →
    Except LexErr TokVal × List LToken × GraphemesS

/-- Models `Lexer` (lexer.rs 18-23). -/
structure LexerS where
  tokens : List LToken
  creationFuncs : List TokenizerI
  eofToken : Option TokVal
  incoming : GraphemesS

/-- Models the dispatch loop of `Lexer::next` (lexer.rs 161-176): iterate the
registered factories in registration order and stop (`break`) at the first
whose `can_tokenize` returns true. -/
def findTokenizer (cfs : List TokenizerI) (toks : List LToken) (g : String)
    (loc : GraphemeLocation) (nx : Option String) : Option TokenizerI :=
  match cfs with
  | [] => none
  | f :: fs =>
      if f.canTokenize toks g loc nx then some f
      else findTokenizer fs toks g loc nx

/-- Models the body of `Lexer::next` after a tokenizer has been selected
(lexer.rs 164-220): record the start coordinates, run the tokenizer's `lex`,
reset the peek cursor, then on success either discard a `should_skip` token or
build its `Span` from the stream's current end coordinates and append it. -/
def LexerS.lexStep (gc : String → Nat) (l : LexerS) (g : String)
    (loc : GraphemeLocation) (nx : Option String) (inc1 : GraphemesS)
    (tk : TokenizerI) : Option (Except LexErr (Option LToken)) × LexerS :=
  let r := tk.lex g loc nx l.tokens inc1
  let toks1 := r.2.1
  let inc2 := r.2.2.resetPeek
  match r.1 with
  | .error e => (some (.error e), { l with tokens := toks1, incoming := inc2 })
  | .ok tok =>
      if tok.skip then
        (some (.ok none), { l with tokens := toks1, incoming := inc2 })
      else
        let span := Span.new gc inc2.lines
          (loc.index, inc2.currentIndex) (loc.byteStart, inc2.lastByteIndex)
          (loc.line, inc2.currentLine) (loc.column, inc2.currentColumn) inc2.src
        let token : LToken := ⟨tok, span⟩
        (some (.ok (some token)),
         { l with tokens := toks1 ++ [token], incoming := inc2 })

/-- Models `<Lexer as Iterator>::next` (lexer.rs 132-221). At exhaustion the
configured end-of-stream token is `take`n (so it is appended at most once);
otherwise one grapheme is read, one lookahead grapheme is peeked (peek cursor
reset afterwards), and the first matching tokenizer lexes the token. The
`{:?}` quoting of the unclaimed grapheme in the error message is elided. -/
def LexerS.next (gc : String → Nat) (l : LexerS) :
    Option (Except LexErr (Option LToken)) × LexerS :=
  match l.incoming.next with
  | (none, inc) =>
      match l.eofToken with
      | some e =>
          (some (.ok (some (LToken.fromVal e))),
           { l with tokens := l.tokens ++ [LToken.fromVal e], eofToken := none,
                    incoming := inc })
      | none => (none, { l with incoming := inc })
  | (some (.error e), inc) => (some (.error e), { l with incoming := inc })
  | (some (.ok gl), inc) =>
      match findTokenizer l.creationFuncs l.tokens gl.1 gl.2 ((inc.peek).1.map Prod.fst) with
      | some tk =>
          LexerS.lexStep gc l gl.1 gl.2 ((inc.peek).1.map Prod.fst) ((inc.peek).2.resetPeek) tk
      | none =>
          (some (.error (.other (.msg ("Failed to find a tokenizer for " ++ gl.1)))),
           { l with incoming := (inc.peek).2.resetPeek })

/-- Models `Lexer::tokenize` (lexer.rs 117-127): drive `next` until the stream
is exhausted or an error occurs. The `fuel` bounds the number of iterations
(the Rust loop is unbounded); theorems supply sufficient fuel. -/
def LexerS.tokenize (gc : String → Nat) : Nat → LexerS → Except LexErr (List LToken) × LexerS
  | 0, l => (.ok l.tokens, l)
  | Nat.succ fuel, l =>
      match LexerS.next gc l with
      | (none, l1) => (.ok l1.tokens, l1)
      | (some (.ok _), l1) => LexerS.tokenize gc fuel l1
      | (some (.error e), l1) => (.error e, l1)

/-! ### src/parsing/node.rs and the parsing-side tokens -/

/-- A parsing-side token, modelling a `Token<ValueStore>` from token.rs
(`internal_value: String`, `value_store: ValueStore`) behind the `AnyToken`
trait object; `tag` identifies the erased type parameter `ValueStore`, so the
`downcast_ref::<Token<T>>` in the `token` combinator becomes a tag
comparison. `store` abstracts the `ValueStore` payload. -/
structure PTok where
  tag : Nat
  internalValue : String
  store : Nat
deriving DecidableEq

/-- Models `TokenIter` (token.rs 157-199): a `VecDeque` of shared tokens plus
the last token popped from the front. Cloning a `TokenIter` copies the deque
of `Rc`s, giving an independent cursor over shared token storage; in this pure
model a clone is simply the value itself. -/
structure TokenIter where
  tokens : List PTok
  lastNode : Option PTok
deriving DecidableEq

/-- Models `<TokenIter as Iterator>::next` (token.rs 189-192): record the
front as `last_node`, then pop it. -/
def TokenIter.next (it : TokenIter) : Option PTok × TokenIter :=
  match it.tokens with
  | [] => (none, { it with lastNode := none })
  | t :: ts => (some t, ⟨ts, some t⟩)

/-- Models `<TokenIter as ExactSizeIterator>::len`. -/
def TokenIter.len (it : TokenIter) : Nat :=
  it.tokens.length

/-- The erased type parameter of a `Node<T>`: `NoValue`, a grammar type
(indexed by `Nat`), or a `Vec<T>` produced by `flatten`. -/
inductive NTag where
  | noValue
  | base (n : Nat)
  | vec (t : NTag)
deriving DecidableEq

/-- The payload carried by a node's `value: Option<T>`. -/
inductive NVal where
  | natV (n : Nat)
  | strV (s : String)
  | tokV (t : PTok)
  | listV (l : List NVal)

/-- Models `Node<T>` behind the `dyn AnyNode` trait object (node.rs 88-91):
`tag` identifies the erased `T` (so `downcast_mut::<Node<T>>` in
`GetAnyNodeValue::value_mut` becomes a tag comparison), `value` the
`Option<T>` payload, `children` the list of shared child nodes. -/
inductive NodeS where
  | mk (tag : NTag) (value : Option NVal) (children : List NodeS)

/-- The `tag` field of a node. -/
def NodeS.tag : NodeS → NTag
  | .mk t _ _ => t

/-- The `value` field of a node. -/
def NodeS.value : NodeS → Option NVal
  | .mk _ v _ => v

/-- The `children` field of a node. -/
def NodeS.children : NodeS → List NodeS
  | .mk _ _ c => c

/-! ### src/parsing/combinators.rs

A `SharedParserFn` is `Fn(Rc<RefCell<TokenIter>>) -> Result<Rc<RefCell<dyn AnyNode>>, String>`:
it receives the shared iterator and may mutate it whether it succeeds or
fails, so it is modelled as a function returning the result *and* the final
iterator state. -/

/-- The result of one parser application: `ParserResult` plus the final state
of the shared `TokenIter`. -/
abbrev ParserApp := Except String NodeS × TokenIter

/-- Models `SharedParserFn`. -/
abbrev ParserFn := TokenIter → ParserApp

/-- Models the `token::<T>(parser)` combinator (combinators.rs 28-43): pop the
next token (`next().ok_or("No next token!")?` — the pop happens *before* the
type check), then downcast to `Token<T>`; on success delegate to the
projection, on a type mismatch fail (the popped token is not restored). -/
def tokenP (t : Nat) (proj : PTok → Except String NodeS) : ParserFn := fun tokens =>
  match tokens.next with
  | (none, it1) => (.error "No next token!", it1)
  | (some tok, it1) =>
      if tok.tag = t then (proj tok, it1)
      else (.error "Token type does not match what is expected!", it1)

/-- The loop of `sequence` (combinators.rs 53-58): run each parser in order on
the same shared iterator, accumulating result nodes; a failure propagates via
`?` with the iterator left wherever the failing parser left it. -/
def sequenceGo : List ParserFn → TokenIter → List NodeS → ParserApp
  | [], it, acc => (.ok (.mk .noValue none acc.reverse), it)
  | p :: ps, it, acc =>
      match p it with
      | (.ok n, it1) => sequenceGo ps it1 (n :: acc)
      | (.error e, it1) => (.error e, it1)

/-- Models the `sequence(parsers)` combinator (combinators.rs 48-69). -/
def sequence (parsers : List ParserFn) : ParserFn := fun tokens =>
  sequenceGo parsers tokens []

/-- The child traversal of `flatten` (combinators.rs 88-100): every child must
downcast to `Node<T>` (tag `t`), else the whole flattening fails; a child
whose `value` is `None` contributes nothing (`value.take()` yields `None` and
the loop continues). Returns the taken values in order. -/
def flattenChildren (t : NTag) : List NodeS → Option (List NVal)
  | [] => some []
  | c :: cs =>
      if c.tag = t then
        match flattenChildren t cs with
        | some rest =>
            some (match c.value with
                  | some v => v :: rest
                  | none => rest)
        | none => none
      else none

/-- Models the `flatten::<T>(sequence)` combinator (combinators.rs 75-110). -/
def flatten (t : NTag) (seq : ParserFn) : ParserFn := fun tokens =>
  match seq tokens with
  | (.error e, it1) => (.error e, it1)
  | (.ok nd, it1) =>
      match flattenChildren t nd.children with
      | none => (.error "Failed when flattening, not all children match the provided type.", it1)
      | some items => (.ok (.mk (.vec t) (some (.listV items)) []), it1)

/-- The token tag used for the synthetic `EOF` token type (token.rs 203). -/
def eofTag : Nat := 0

/-- Models the `eof()` combinator (combinators.rs 113-115). -/
def eofP : ParserFn :=
  tokenP eofTag (fun _ => .ok (.mk .noValue none []))

/-- The loop of `any_of` (combinators.rs 130-151): each alternative runs on a
fresh clone of the caller's iterator (`tokens.borrow().clone()`); the first
success has its local iterator written back (`tokens.replace`), a failure
discards the local clone and the next alternative re-clones from the caller's
untouched iterator. -/
def anyOfGo : List ParserFn → TokenIter → ParserApp
  | [], tokens => (.error "None of the parsers were able to conclude successfully!", tokens)
  | p :: ps, tokens =>
      match p tokens with
      | (.ok n, it1) => (.ok n, it1)
      | (.error _, _) => anyOfGo ps tokens

/-- Models the `any_of(parsers)` combinator (combinators.rs 119-158). The Rust
builder panics when `parsers` is empty; the theorems below never use an empty
list. -/
def any_of (parsers : List ParserFn) : ParserFn := fun tokens =>
  anyOfGo parsers tokens

/-- The separator-free loop of `repeated` (combinators.rs 200-202): push
elements while the element parser succeeds on the shared iterator; the
terminating failed attempt leaves the iterator wherever it ended. `fuel`
bounds the unbounded Rust `while` loop. -/
def repeatedGo (element : ParserFn) : Nat → TokenIter → List NodeS → ParserApp
  | 0, it, acc => (.ok (.mk .noValue none acc.reverse), it)
  | Nat.succ fuel, it, acc =>
      match element it with
      | (.ok n, it1) => repeatedGo element fuel it1 (n :: acc)
      | (.error _, it1) => (.ok (.mk .noValue none acc.reverse), it1)

/-- The separator loop of `repeated` (combinators.rs 187-196): while the
separator matches, the following tokens must match the element parser, else a
hard error. -/
def repeatedSepGo (element sep : ParserFn) : Nat → TokenIter → List NodeS → ParserApp
  | 0, it, acc => (.ok (.mk .noValue none acc.reverse), it)
  | Nat.succ fuel, it, acc =>
      match sep it with
      | (.ok _, it1) =>
          match element it1 with
          | (.ok n, it2) => repeatedSepGo element sep fuel it2 (n :: acc)
          | (.error _, it2) => (.error "Failed to parse repeated element", it2)
      | (.error _, it1) => (.ok (.mk .noValue none acc.reverse), it1)

/-- Models the `repeated(element, separator)` combinator
(combinators.rs 166-220). With a separator, the first element is mandatory
(`"Failed to tokenize parse element"` otherwise). -/
def repeated (element : ParserFn) (separator : Option ParserFn) (fuel : Nat) : ParserFn :=
  fun tokens =>
    match separator with
    | some sep =>
        match element tokens with
        | (.ok n, it1) => repeatedSepGo element sep fuel it1 [n]
        | (.error _, it1) => (.error "Failed to tokenize parse element", it1)
    | none => repeatedGo element fuel tokens []

/-- Models the `nothing()` combinator (combinators.rs 223-228). -/
def nothing : ParserFn := fun tokens =>
  (.ok (.mk .noValue none []), tokens)

/-! ### Shared concrete inputs for the combinator claims -/

/-- A token of grammar type 1. -/
def pTokA : PTok := ⟨1, "", 0⟩

/-- A token of grammar type 2. -/
def pTokB : PTok := ⟨2, "", 0⟩

/-- A projection wrapping the matched token in a `Node<T>` of tag `base 1`. -/
def projT : PTok → Except String NodeS := fun t => .ok (.mk (.base 1) (some (.tokV t)) [])

/-- `token::<T1>` parser with the wrapping projection. -/
def cA : ParserFn := tokenP 1 projT

/-- `token::<T2>` parser with the wrapping projection. -/
def cB : ParserFn := tokenP 2 projT

/-- An iterator holding one token of type 1. -/
def cIt : TokenIter := ⟨[pTokA], none⟩

/-- An iterator holding one token of type 2. -/
def cItB : TokenIter := ⟨[pTokB], none⟩

/-! ### C2 — sequence and failure -/

/-- C2 (amended): if a step of `sequence` fails, the whole sequence fails with
that step's error and the shared iterator is left exactly where the failing
step left it — consumption by the earlier successful steps is *not* rolled
back (there is no restore in combinators.rs 48-69). -/
theorem c2_sequence_no_restore (a b : ParserFn) (it it1 it2 : TokenIter)
    (n : NodeS) (e : String)
    (ha : a it = (.ok n, it1)) (hb : b it1 = (.error e, it2)) :
    sequence [a, b] it = (.error e, it2) := by
  simp [sequence, sequenceGo, ha, hb]

/-- C2 witness: `cA` succeeds consuming the only token, `cB` then fails on the
exhausted iterator, and the sequence fails with the iterator still drained. -/
theorem c2_witness :
    cA cIt = (.ok (.mk (.base 1) (some (.tokV pTokA)) []), ⟨[], some pTokA⟩)
    ∧ cB ⟨[], some pTokA⟩ = (.error "No next token!", ⟨[], none⟩)
    ∧ sequence [cA, cB] cIt = (.error "No next token!", ⟨[], none⟩) :=
  ⟨rfl, rfl, c2_sequence_no_restore cA cB cIt ⟨[], some pTokA⟩ ⟨[], none⟩ _ _ rfl rfl⟩

/-- C2 counterexample: `sequence([a, b])` with `a` succeeding and `b` failing
does *not* leave the iterator at its original position — the token consumed by
`a` stays consumed. -/
theorem c2_counterexample :
    (sequence [cA, cB] cIt).1 = .error "No next token!"
    ∧ (sequence [cA, cB] cIt).2 ≠ cIt :=
  ⟨rfl, by decide⟩

/-! ### C3 — the token combinator and consumption -/

/-- C3 (amended): `token::<T>(project)` pops the next token *before* the type
check; on exhaustion it fails without consuming, on a match it advances and
delegates to `project`, but on a type mismatch it fails with the mismatched
token already consumed (the iterator has advanced by one). -/
theorem c3_token_consumes_on_mismatch (t : Nat) (proj : PTok → Except String NodeS)
    (it : TokenIter) :
    (it.tokens = [] → tokenP t proj it = (.error "No next token!", ⟨[], none⟩))
    ∧ (∀ tok rest, it.tokens = tok :: rest → tok.tag ≠ t →
        tokenP t proj it = (.error "Token type does not match what is expected!", ⟨rest, some tok⟩))
    ∧ (∀ tok rest, it.tokens = tok :: rest → tok.tag = t →
        tokenP t proj it = (proj tok, ⟨rest, some tok⟩)) := by
  obtain ⟨ts, ln⟩ := it
  refine ⟨fun h => ?_, fun tok rest h hne => ?_, fun tok rest h heq => ?_⟩ <;>
    simp only at h <;> subst h <;>
    simp [tokenP, TokenIter.next, *]

/-- C3 witness: a type-2 token meets `token::<T1>`: the parser fails and the
iterator has advanced past the mismatched token. -/
theorem c3_witness :
    cItB.tokens = pTokB :: [] ∧ pTokB.tag ≠ 1
    ∧ tokenP 1 projT cItB =
        (.error "Token type does not match what is expected!", ⟨[], some pTokB⟩) :=
  ⟨rfl, by decide,
   (c3_token_consumes_on_mismatch 1 projT cItB).2.1 pTokB [] rfl (by decide)⟩

/-- C3 counterexample: after the mismatch failure the iterator is *not* at its
original position (the claim asserts it is unchanged). -/
theorem c3_counterexample :
    (tokenP 1 projT cItB).1 = .error "Token type does not match what is expected!"
    ∧ (tokenP 1 projT cItB).2 ≠ cItB :=
  ⟨rfl, by decide⟩

/-! ### C4 — ordered choice with backtracking -/

/-- C4: `any_of` tries the alternatives in order, each against a snapshot of
the caller's iterator: a failed alternative is discarded, so the next
alternative starts from exactly the caller's original state; the first success
commits its iterator back; and `any_of([a, b])` with `a` failing and `b`
succeeding behaves exactly like running `b` alone from the original
position. -/
theorem c4_any_of_backtracking :
    (∀ (p : ParserFn) (ps : List ParserFn) (it s : TokenIter) (e : String),
       p it = (.error e, s) → any_of (p :: ps) it = anyOfGo ps it)
    ∧ (∀ (p : ParserFn) (ps : List ParserFn) (it it1 : TokenIter) (n : NodeS),
       p it = (.ok n, it1) → any_of (p :: ps) it = (.ok n, it1))
    ∧ (∀ (a b : ParserFn) (it s : TokenIter) (e : String) (n : NodeS) (it1 : TokenIter),
       a it = (.error e, s) → b it = (.ok n, it1) → any_of [a, b] it = b it) := by
  refine ⟨fun p ps it s e h => ?_, fun p ps it it1 n h => ?_,
          fun a b it s e n it1 ha hb => ?_⟩
  · simp [any_of, anyOfGo, h]
  · simp [any_of, anyOfGo, h]
  · simp [any_of, anyOfGo, ha, hb]

/-- C4 witness: `cB` fails on `cIt` (consuming inside its discarded snapshot),
`cA` succeeds from the original position, and `any_of [cB, cA]` equals running
`cA` alone. -/
theorem c4_witness :
    cB cIt = (.error "Token type does not match what is expected!", ⟨[], some pTokA⟩)
    ∧ cA cIt = (.ok (.mk (.base 1) (some (.tokV pTokA)) []), ⟨[], some pTokA⟩)
    ∧ any_of [cB, cA] cIt = cA cIt :=
  ⟨rfl, rfl,
   c4_any_of_backtracking.2.2 cB cA cIt ⟨[], some pTokA⟩ _ _ ⟨[], some pTokA⟩ rfl rfl⟩

/-! ### C5 — greedy repetition without separator -/

/-- C5 (amended): `repeated(element, None)` greedily matches `element`,
stopping at the first failure, which is not an error (zero matches is a
success with an empty child list) — but the shared iterator is left wherever
the failed terminating attempt left it, so the failed attempt's consumption is
not rolled back and "consumes nothing" holds only when the failed attempt
itself consumed nothing. -/
theorem c5_repeated_stops_at_failure (element : ParserFn) (fuel : Nat) (it : TokenIter) :
    (∀ e it1, element it = (.error e, it1) →
       repeated element none (fuel + 1) it = (.ok (.mk .noValue none []), it1))
    ∧ (∀ n it1 e it2, element it = (.ok n, it1) → element it1 = (.error e, it2) →
       repeated element none (fuel + 2) it = (.ok (.mk .noValue none [n]), it2)) := by
  constructor
  · intro e it1 h
    simp [repeated, repeatedGo, h]
  · intro n it1 e it2 h1 h2
    simp [repeated, repeatedGo, h1, h2]

/-- C5 witness: zero matches — the element parser fails immediately and
`repeated` succeeds with an empty child list, the iterator reflecting the
failed attempt's consumption. -/
theorem c5_witness :
    cA cItB = (.error "Token type does not match what is expected!", ⟨[], some pTokB⟩)
    ∧ repeated cA none 5 cItB = (.ok (.mk .noValue none []), ⟨[], some pTokB⟩) :=
  ⟨rfl, (c5_repeated_stops_at_failure cA 4 cItB).1 _ ⟨[], some pTokB⟩ rfl⟩

/-- C5 counterexample: with zero matching tokens `repeated(element, None)`
succeeds with an empty child list but the caller's iterator is *not*
unchanged — the failed `token::<T1>` attempt consumed the mismatched token. -/
theorem c5_counterexample :
    (repeated cA none 5 cItB).1 = .ok (.mk .noValue none [])
    ∧ (repeated cA none 5 cItB).2 ≠ cItB :=
  ⟨rfl, by decide⟩

/-! ### C6 — flattening an aggregate node -/

/-- Helper: when every child downcasts to `Node<T>`, the flatten loop returns
exactly the present values in source order. -/
theorem flattenChildren_all (t : NTag) (cs : List NodeS)
    (h : ∀ c ∈ cs, c.tag = t) :
    flattenChildren t cs = some (cs.filterMap NodeS.value) := by
  induction cs with
  | nil => simp [flattenChildren]
  | cons c cs ih =>
      have hc := h c (by simp)
      have hrest : ∀ x ∈ cs, x.tag = t := fun x hx => h x (by simp [hx])
      cases hv : c.value <;>
        simp [flattenChildren, hc, ih hrest, List.filterMap_cons, hv]

/-- Helper: a single child of the wrong type makes the flatten loop fail. -/
theorem flattenChildren_bad (t : NTag) (cs : List NodeS)
    (h : ∃ c ∈ cs, c.tag ≠ t) : flattenChildren t cs = none := by
  induction cs with
  | nil => simp at h
  | cons c cs ih =>
      obtain ⟨d, hd, hdt⟩ := h
      rcases List.mem_cons.mp hd with rfl | hmem
      · simp [flattenChildren, hdt]
      · by_cases hc : c.tag = t
        · simp [flattenChildren, hc, ih ⟨d, hmem, hdt⟩]
        · simp [flattenChildren, hc]

/-- C6 (amended): `flatten::<T>` fails iff some child of the aggregate has a
type other than `T`; a child of type `T` whose value is missing (`None`) is
silently skipped (`value.take()` yields nothing and the loop continues), and
on success the present values are moved out once each, in source order. -/
theorem c6_flatten_missing_skipped (t : NTag) (seq : ParserFn) (it it1 : TokenIter)
    (nd : NodeS) (hs : seq it = (.ok nd, it1)) :
    ((∀ c ∈ nd.children, c.tag = t) →
       flatten t seq it =
         (.ok (.mk (.vec t) (some (.listV (nd.children.filterMap NodeS.value))) []), it1))
    ∧ ((∃ c ∈ nd.children, c.tag ≠ t) →
       flatten t seq it =
         (.error "Failed when flattening, not all children match the provided type.", it1)) := by
  constructor
  · intro h
    simp [flatten, hs, flattenChildren_all t _ h]
  · intro h
    simp [flatten, hs, flattenChildren_bad t _ h]

/-- A sequence of three `token::<T1>` steps, as in the spec's three-token
scenario. -/
def seq3 : ParserFn := sequence [tokenP 1 projT, tokenP 1 projT, tokenP 1 projT]

/-- Three type-1 tokens with distinct payloads. -/
def cIt3 : TokenIter := ⟨[⟨1, "", 7⟩, ⟨1, "", 8⟩, ⟨1, "", 9⟩], none⟩

/-- The aggregate produced by `seq3` on `cIt3`. -/
def nd3 : NodeS :=
  .mk .noValue none
    [.mk (.base 1) (some (.tokV ⟨1, "", 7⟩)) [],
     .mk (.base 1) (some (.tokV ⟨1, "", 8⟩)) [],
     .mk (.base 1) (some (.tokV ⟨1, "", 9⟩)) []]

/-- C6 witness: flattening a sequence of three `Token<T1>`-producing steps
yields the ordered 3-element value sequence. -/
theorem c6_witness :
    seq3 cIt3 = (.ok nd3, ⟨[], some ⟨1, "", 9⟩⟩)
    ∧ flatten (.base 1) seq3 cIt3 =
        (.ok (.mk (.vec (.base 1))
          (some (.listV [.tokV ⟨1, "", 7⟩, .tokV ⟨1, "", 8⟩, .tokV ⟨1, "", 9⟩])) []),
         ⟨[], some ⟨1, "", 9⟩⟩) :=
  ⟨rfl,
   (c6_flatten_missing_skipped (.base 1) seq3 cIt3 ⟨[], some ⟨1, "", 9⟩⟩ nd3 rfl).1
     (by intro c hc; fin_cases hc <;> rfl)⟩

/-- A parser yielding an aggregate whose only child is a `Node<T1>` with a
missing (`None`) value. -/
def seqNoneChild : ParserFn := fun it => (.ok (.mk .noValue none [.mk (.base 1) none []]), it)

/-- C6 counterexample: a child of the right type but with a missing value does
*not* make flattening fail — the child is skipped and flattening succeeds with
an empty value list, refuting the claim's "fails if any child has ... a
missing value". -/
theorem c6_counterexample :
    (seqNoneChild cIt).1 = .ok (.mk .noValue none [.mk (.base 1) none []])
    ∧ flatten (.base 1) seqNoneChild cIt =
        (.ok (.mk (.vec (.base 1)) (some (.listV [])) []), cIt) :=
  ⟨rfl, rfl⟩

/-! ### C7 — span line generation -/

/-- C7 (amended): a single-line span yields exactly one `Line` carrying the
token's start/end columns; a span over `lineStart < lineEnd` yields
`lineEnd - lineStart + 1` entries in which every line except the last —
including the *first*, whose range is not clipped to the token's start
column — covers `0..=cluster-count(line text)` (the upper bound being the
full cluster count, i.e. one past the last grapheme index, since the
`saturating_sub(1)` is commented out), and the final line covers
`0..=endColumn`. -/
theorem c7_generate_lines_shape (gcount : String → Nat) (lines : List String)
    (ls le cs ce : Nat) :
    (ls = le → generate_lines gcount lines ls le cs ce = [⟨ls, cs, ce⟩])
    ∧ (ls < le → generate_lines gcount lines ls le cs ce =
        ((List.range (le - ls)).map
          (fun i => Line.mk (ls + i) 0 (gcount (lines.getD (ls + i) "")))) ++ [⟨le, 0, ce⟩])
    ∧ (ls < le → (generate_lines gcount lines ls le cs ce).length = le - ls + 1) := by
  have hshape : ls < le → generate_lines gcount lines ls le cs ce =
      ((List.range (le - ls)).map
        (fun i => Line.mk (ls + i) 0 (gcount (lines.getD (ls + i) "")))) ++ [⟨le, 0, ce⟩] := by
    intro h
    have hne : ls ≠ le := Nat.ne_of_lt h
    have h1 : le + 1 - ls = (le - ls) + 1 := by omega
    simp only [generate_lines, if_neg hne, h1, List.range_succ, List.map_append,
      List.map_cons, List.map_nil, List.dropLast_concat]
  refine ⟨fun h => by simp [generate_lines, h], hshape, fun h => ?_⟩
  simp [hshape h]

/-- C7 witness: a single-line span keeps the token's column range; a two-line
span produces two entries, the first covering the whole first line. -/
theorem c7_witness :
    generate_lines String.length ["ab"] 0 0 1 2 = [⟨0, 1, 2⟩]
    ∧ (0 : Nat) < 1
    ∧ generate_lines String.length ["ab", "cd"] 0 1 1 1 = [⟨0, 0, 2⟩, ⟨1, 0, 1⟩] :=
  ⟨(c7_generate_lines_shape String.length ["ab"] 0 0 1 2).1 rfl, by decide,
   (c7_generate_lines_shape String.length ["ab", "cd"] 0 1 1 1).2.1 (by decide)⟩

/-- C7 counterexample: for a token starting at column 1 on line 0 of
`["ab", "cd"]` and ending at column 1 of line 1, the generated first line's
range starts at 0 (the whole line), not at the token's start column 1 as the
claim asserts (`gcount` instantiated with `String.length`, the cluster count
of these ASCII lines). -/
theorem c7_counterexample :
    generate_lines String.length ["ab", "cd"] 0 1 1 1 = [⟨0, 0, 2⟩, ⟨1, 0, 1⟩]
    ∧ (Line.mk 0 0 2).rangeStart ≠ 1 :=
  ⟨rfl, by decide⟩

/-! ### C10 — peeking a pending decode error -/

/-- C10: in strict mode a pending decode error makes `Graphemes::peek` return
`None` — indistinguishable from end of stream, which also returns `None` —
without surfacing or consuming the error; the error is surfaced only by a call
to `next`, as a wrapped `LexError::Other`. -/
theorem c10_peek_hides_error (g : GraphemesS) (e : CSErr) :
    (g.peekIndex = 0 → g.queue.head? = some (.error e) →
       (g.peek).1 = none ∧ (g.next).1 = some (.error (.other (.cs e))))
    ∧ (g.peekIndex = 0 → g.queue = [] → g.iter.head? = some (.error e) →
       (g.peek).1 = none ∧ (g.next).1 = some (.error (.other (.cs e))))
    ∧ (g.queue = [] → g.iter = [] → (g.peek).1 = none ∧ (g.next).1 = none) := by
  refine ⟨fun hpi hq => ?_, fun hpi hq hit => ?_, fun hq hit => ?_⟩
  · match hq2 : g.queue, hq with
    | x :: qs, _ =>
        obtain rfl : x = Except.error e := by
          rw [hq2] at hq; simpa using hq
        constructor
        · simp [GraphemesS.peek, hq2, hpi, peekProcess]
        · simp [GraphemesS.next, GraphemesS.resetPeek, hq2, nextProcess]
  · match hit2 : g.iter, hit with
    | x :: rest, _ =>
        obtain rfl : x = Except.error e := by
          rw [hit2] at hit; simpa using hit
        constructor
        · simp [GraphemesS.peek, hq, hit2, hpi, peekProcess]
        · simp [GraphemesS.next, GraphemesS.resetPeek, hq, hit2, nextProcess]
  · constructor
    · simp [GraphemesS.peek, hq, hit]
    · simp [GraphemesS.next, GraphemesS.resetPeek, hq, hit]

/-- A strict-mode stream whose first pending cluster result is a decode error
on the byte `0xAD`. -/
def c10Stream : GraphemesS := GraphemesS.new [.error ⟨[173]⟩] ""

/-- C10 witness: on a concrete strict-mode stream whose next pending result is
a decode error, `peek` returns `None` while `next` returns the wrapped
error. -/
theorem c10_witness :
    c10Stream.peekIndex = 0 ∧ c10Stream.queue = []
    ∧ c10Stream.iter.head? = some (.error ⟨[173]⟩)
    ∧ (c10Stream.peek).1 = none
    ∧ (c10Stream.next).1 = some (.error (.other (.cs ⟨[173]⟩))) :=
  ⟨rfl, rfl, rfl,
   ((c10_peek_hides_error c10Stream ⟨[173]⟩).2.1 rfl rfl rfl).1,
   ((c10_peek_hides_error c10Stream ⟨[173]⟩).2.1 rfl rfl rfl).2⟩

/-! ### C8 — the synthetic end-of-stream token -/

/-- On an exhausted stream, `Graphemes::next` returns `None` and only resets
the peek cursor. -/
theorem GraphemesS.next_exhausted (g : GraphemesS) (hq : g.queue = []) (hi : g.iter = []) :
    g.next = (none, g.resetPeek) := by
  simp [GraphemesS.next, GraphemesS.resetPeek, hq, hi]

/-- Resetting the peek cursor twice is the same as resetting it once. -/
theorem GraphemesS.resetPeek_resetPeek (g : GraphemesS) :
    g.resetPeek.resetPeek = g.resetPeek := rfl

/-- C8: when the grapheme stream is exhausted and an end-of-stream token value
is configured, `Lexer::next` appends exactly one such token, carrying the
empty default `Span`, and — because the value is `take`n out of `eof_token` —
every further read returns `None` and leaves the state (in particular the
token vector) unchanged; when no end-of-stream token is configured, nothing is
appended. -/
theorem c8_eof_token_once (gc : String → Nat) (l : LexerS)
    (hq : l.incoming.queue = []) (hi : l.incoming.iter = []) :
    (∀ e, l.eofToken = some e →
       (LexerS.next gc l).1 = some (.ok (some (LToken.fromVal e)))
       ∧ (LexerS.next gc l).2.tokens = l.tokens ++ [LToken.fromVal e]
       ∧ (LToken.fromVal e).span = Span.empty
       ∧ LexerS.next gc (LexerS.next gc l).2 = (none, (LexerS.next gc l).2))
    ∧ (l.eofToken = none →
       (LexerS.next gc l).1 = none ∧ (LexerS.next gc l).2.tokens = l.tokens) := by
  have hnext : l.incoming.next = (none, l.incoming.resetPeek) :=
    GraphemesS.next_exhausted _ hq hi
  have hnext2 : (l.incoming.resetPeek).next = (none, l.incoming.resetPeek) := by
    rw [GraphemesS.next_exhausted _ (by simpa [GraphemesS.resetPeek] using hq)
      (by simpa [GraphemesS.resetPeek] using hi), GraphemesS.resetPeek_resetPeek]
  constructor
  · intro e he
    have h1 : LexerS.next gc l =
        (some (.ok (some (LToken.fromVal e))),
         { l with tokens := l.tokens ++ [LToken.fromVal e], eofToken := none,
                  incoming := l.incoming.resetPeek }) := by
      simp [LexerS.next, hnext, he]
    refine ⟨by rw [h1], by rw [h1], rfl, ?_⟩
    rw [h1]
    simp [LexerS.next, hnext2]
  · intro he
    have h1 : LexerS.next gc l = (none, { l with incoming := l.incoming.resetPeek }) := by
      simp [LexerS.next, hnext, he]
    exact ⟨by rw [h1], by rw [h1]⟩

/-- A lexer over an exhausted stream with an end-of-stream token of id 5. -/
def c8Lexer : LexerS :=
  ⟨[], [], some ⟨5, false, none, none⟩, GraphemesS.new [] ""⟩

/-- C8 witness: the concrete exhausted lexer appends its configured
end-of-stream token exactly once, with the empty span, and yields `None` on
every further read. -/
theorem c8_witness :
    c8Lexer.incoming.queue = [] ∧ c8Lexer.incoming.iter = []
    ∧ c8Lexer.eofToken = some ⟨5, false, none, none⟩
    ∧ ((LexerS.next (fun s => s.length) c8Lexer).1 =
         some (.ok (some (LToken.fromVal ⟨5, false, none, none⟩)))
       ∧ (LexerS.next (fun s => s.length) c8Lexer).2.tokens =
         c8Lexer.tokens ++ [LToken.fromVal ⟨5, false, none, none⟩]
       ∧ (LToken.fromVal ⟨5, false, none, none⟩).span = Span.empty
       ∧ LexerS.next (fun s => s.length) (LexerS.next (fun s => s.length) c8Lexer).2 =
         (none, (LexerS.next (fun s => s.length) c8Lexer).2)) :=
  ⟨rfl, rfl, rfl,
   (c8_eof_token_once (fun s => s.length) c8Lexer rfl rfl).1 ⟨5, false, none, none⟩ rfl⟩

/-! ### C9 — no unfinished-final-token check -/

/-- A tokenizer that accepts any grapheme and produces a token value whose
`is_done()` is `Some(false)` and `can_be_forced()` is `Some(false)` — an
unfinished, unforceable final token in the sense of token.rs 84-92. -/
def c9Tok : TokenizerI :=
  { canTokenize := fun _ _ _ _ => true,
    lex := fun _ _ _ toks g => (.ok ⟨1, false, some false, some false⟩, toks, g) }

/-- A lexer whose single grapheme is lexed into that unfinished token. -/
def c9Lexer : LexerS :=
  ⟨[], [c9Tok], none, GraphemesS.new [.ok ("a", 0, 0)] ""⟩

/-- The token produced by `c9Lexer`. -/
def c9OutToken : LToken :=
  ⟨⟨1, false, some false, some false⟩, ⟨[⟨0, 0, 0⟩], some (0, 0), some (0, 0), ""⟩⟩

/-- C9 (code bug): `Lexer::tokenize` (lexer.rs 117-127) returns `Ok` even
though the last token of the stream reports `is_done() = false` and
`can_be_forced() = false` — the `is_done`/`can_be_forced` failsafe documented
in token.rs 26-34 is never consulted, so the unfinished-final-token error the
spec requires can never be produced. -/
theorem c9_no_unfinished_check :
    (LexerS.tokenize (fun s => s.length) 3 c9Lexer).1 = .ok [c9OutToken]
    ∧ c9OutToken.value.is_done = false
    ∧ c9OutToken.value.can_be_forced = false :=
  ⟨rfl, rfl, rfl⟩

/-! ### C1 — tokenizer dispatch order -/

/-- C1 (amended): the dispatch loop of `Lexer::next` selects the *first*
factory in registration order whose `can_tokenize` returns true (the loop
`break`s at the first match, lexer.rs 174), i.e. it behaves as `List.find?`;
and when a tokenizer is found, `Lexer::next` invokes exactly that tokenizer's
`lex`, once, via `lexStep`. -/
theorem c1_first_match_selected :
    (∀ (cfs : List TokenizerI) (toks : List LToken) (g : String)
       (loc : GraphemeLocation) (nx : Option String),
       findTokenizer cfs toks g loc nx = cfs.find? (fun tk => tk.canTokenize toks g loc nx))
    ∧ (∀ (gc : String → Nat) (l : LexerS) (gl : String × GraphemeLocation)
         (inc : GraphemesS) (tk : TokenizerI),
       l.incoming.next = (some (.ok gl), inc) →
       findTokenizer l.creationFuncs l.tokens gl.1 gl.2 ((inc.peek).1.map Prod.fst) = some tk →
       LexerS.next gc l =
         LexerS.lexStep gc l gl.1 gl.2 ((inc.peek).1.map Prod.fst) ((inc.peek).2.resetPeek) tk) := by
  constructor
  · intro cfs toks g loc nx
    induction cfs with
    | nil => simp [findTokenizer]
    | cons f fs ih =>
        by_cases h : f.canTokenize toks g loc nx <;>
          simp [findTokenizer, List.find?_cons, h, ih]
  · intro gc l gl inc tk h1 h2
    simp [LexerS.next, h1, h2]

/-- A tokenizer matching everything whose `lex` yields token id 10. -/
def tkFirst : TokenizerI :=
  { canTokenize := fun _ _ _ _ => true,
    lex := fun _ _ _ toks g => (.ok ⟨10, false, none, none⟩, toks, g) }

/-- A tokenizer matching everything whose `lex` yields token id 20. -/
def tkLast : TokenizerI :=
  { canTokenize := fun _ _ _ _ => true,
    lex := fun _ _ _ toks g => (.ok ⟨20, false, none, none⟩, toks, g) }

/-- A lexer with two registered factories that both claim the grapheme. -/
def c1Lexer : LexerS :=
  ⟨[], [tkFirst, tkLast], none, GraphemesS.new [.ok ("x", 0, 0)] ""⟩

/-- The grapheme stream of `c1Lexer` after reading its single grapheme. -/
def c1Inc : GraphemesS := ⟨[], 1, 0, ["x"], [], 0, 0, ""⟩

/-- The location of the grapheme `"x"` in `c1Lexer`. -/
def c1Loc : GraphemeLocation := ⟨0, 0, 0, 0, 0⟩

/-- C1 witness: on the two-factory lexer, `Lexer::next` dispatches to
`lexStep` with the first matching factory. -/
theorem c1_witness :
    c1Lexer.incoming.next = (some (.ok ("x", c1Loc)), c1Inc)
    ∧ findTokenizer c1Lexer.creationFuncs c1Lexer.tokens "x" c1Loc
        ((c1Inc.peek).1.map Prod.fst) = some tkFirst
    ∧ LexerS.next (fun s => s.length) c1Lexer =
        LexerS.lexStep (fun s => s.length) c1Lexer "x" c1Loc
          ((c1Inc.peek).1.map Prod.fst) ((c1Inc.peek).2.resetPeek) tkFirst :=
  ⟨rfl, rfl,
   c1_first_match_selected.2 (fun s => s.length) c1Lexer ("x", c1Loc) c1Inc tkFirst rfl rfl⟩

/-- C1 counterexample: both registered factories report `can_tokenize = true`,
the *last* one's `lex` would yield token id 20, yet the token produced by
`Lexer::next` has id 10 — the first matching factory in registration order is
selected, not the last. -/
theorem c1_counterexample :
    tkFirst.canTokenize [] "x" c1Loc none = true
    ∧ tkLast.canTokenize [] "x" c1Loc none = true
    ∧ (LexerS.next (fun s => s.length) c1Lexer).1 =
        some (.ok (some ⟨⟨10, false, none, none⟩,
          ⟨[⟨0, 0, 0⟩], some (0, 0), some (0, 0), ""⟩⟩))
    ∧ (10 : Nat) ≠ 20 :=
  ⟨rfl, rfl, rfl, by decide⟩

end Parsley
